import Mathlib

/-!
Shallow embedding of the Lumina Design AI front-end
(src/App.tsx, src/components/CompareSlider.tsx, src/services/geminiService.ts).

The React component state (six `useState` hooks in `App`) plus the module-level
`chatSession` variable of `geminiService.ts` are gathered into one `AppState`
record.  Each event handler of the source is translated into a pure state
transition.  The two remote collaborators (image generation and conversational
advisor) are the only suspension points; their outcomes are passed to the
handlers as explicit parameters (`Except` for the image request, `ChatOutcome`
for the advisor turn), and the generation request a handler issues is returned
alongside the new state so that theorems can talk about what was sent.
`Date.now()` is modelled by an explicit `now : Nat` parameter (ids never carry
any proof obligation in the source; they only need to be strings).
-/

namespace Lumina

/-- Role of a chat message: the source uses the string union
`'user' | 'model'` (src/types, `ChatMessage.role`). -/
inductive Role where
  | user
  | model
deriving DecidableEq, Repr

/-- `ChatMessage` from src/types: `{ id, role, text, isError? }`.
The optional `isError?: boolean` field is modelled with default `false`,
matching JavaScript truthiness (an absent field is falsy). -/
structure ChatMessage where
  id : String
  role : Role
  text : String
  isError : Bool := false
deriving DecidableEq, Repr

/-- `DesignStyle` from src/types: `{ id, name, prompt, previewColor }`. -/
structure DesignStyle where
  id : String
  name : String
  previewColor : String
  prompt : String
deriving DecidableEq, Repr

/-- The preset style catalog `STYLES` of src/App.tsx, lines 18-24. -/
def STYLES : List DesignStyle :=
  [ { id := "modern", name := "Modern", previewColor := "#3b82f6",
      prompt := "Redesign this room in a sleek Modern style with minimalist furniture, clean lines, and neutral colors with blue accents." },
    { id := "scandi", name := "Scandinavian", previewColor := "#14b8a6",
      prompt := "Redesign this room in Scandinavian style, light wood, cozy textures, white walls, airy atmosphere." },
    { id := "industrial", name := "Industrial", previewColor := "#64748b",
      prompt := "Redesign this room in Industrial style, exposed brick, metal accents, leather furniture, raw finishes." },
    { id := "boho", name := "Bohemian", previewColor := "#f59e0b",
      prompt := "Redesign this room in Bohemian style, plants, patterns, eclectic furniture, warm lighting, cozy rugs." },
    { id := "midcen", name := "Mid-Century", previewColor := "#d97706",
      prompt := "Redesign this room in Mid-Century Modern style, teak wood, organic curves, retro colors, statement lighting." } ]

/-- The first preset of `STYLES` (Modern), used by the concrete scenarios. -/
def styleModern : DesignStyle :=
  { id := "modern", name := "Modern", previewColor := "#3b82f6",
    prompt := "Redesign this room in a sleek Modern style with minimalist furniture, clean lines, and neutral colors with blue accents." }

/-- Combined mutable state: the six `useState` hooks of `App`
(src/App.tsx lines 27-32) plus the service-level `chatSession` variable
(src/services/geminiService.ts line 86).  `chatSession` is an opaque remote
handle, so it is modelled as `Option Unit` (absent or present). -/
structure AppState where
  originalImage : Option String
  generatedImage : Option String
  isGenerating : Bool
  chatHistory : List ChatMessage
  chatInput : String
  isChatLoading : Bool
  chatSession : Option Unit
deriving DecidableEq, Repr

/-- The initial state of the component: every image absent, no history,
empty input, no busy flag, no remote chat session. -/
def initialState : AppState :=
  { originalImage := none, generatedImage := none, isGenerating := false,
    chatHistory := [], chatInput := "", isChatLoading := false,
    chatSession := none }

/-- A request sent to the image-generation collaborator
(`generateReimaginedImage(source, prompt)`): the source image payload and the
text prompt. -/
structure GenRequest where
  source : String
  prompt : String
deriving DecidableEq, Repr

/-- A function call carried by the advisor reply
(src/services/geminiService.ts lines 114-122): its `name` and the
`visualDescription` argument the App reads from `args`. -/
structure ToolCall where
  name : String
  visualDescription : String
deriving DecidableEq, Repr

/-- `ChatResponse` of src/services/geminiService.ts lines 73-79: a record with
two optional fields `text?` and `toolCall?`. -/
structure ChatResponse where
  text : Option String := none
  toolCall : Option ToolCall := none
deriving DecidableEq, Repr

/-- Outcome of the awaited `sendMessageToAdvisor` call: either the promise
rejects (the `catch` path of `handleSendMessage`) or it resolves with a
`ChatResponse`. -/
inductive ChatOutcome where
  | reject
  | reply (r : ChatResponse)
deriving DecidableEq, Repr

/-- The observable effects of one `handleSendMessage` run: whether the
conversational collaborator was contacted at all, and the image-generation
request issued, if any. -/
structure MsgEffects where
  advisorCalled : Bool
  genRequest : Option GenRequest
deriving DecidableEq, Repr

/-- Result shaping of `sendMessageToAdvisor`
(src/services/geminiService.ts lines 111-125): if the model reply carries
function calls, the first one is returned as `toolCall` and no `text` field is
set; otherwise the reply text (possibly absent) is returned with no
`toolCall`. -/
def shapeAdvisorReply (functionCalls : List ToolCall) (responseText : Option String) :
    ChatResponse :=
  match functionCalls with
  | c :: _ => { toolCall := some c, text := none }
  | [] => { toolCall := none, text := responseText }

/-- `resetChatSession` (src/services/geminiService.ts lines 88-90): drops the
remote conversation handle, so the next advisor call recreates it. -/
def resetChatSession (s : AppState) : AppState :=
  { s with chatSession := none }

/-- The welcome message seeded into the history on upload
(src/App.tsx lines 50-54). -/
def welcomeTurn : ChatMessage :=
  { id := "init", role := .model,
    text := "Hi! I\x27m your AI Interior Design Consultant. Upload a photo of your room, select a style, or tell me how you\x27d like to reimagine your space!" }

/-- `handleFileUpload` (src/App.tsx lines 42-59): when the picker supplies a
file, the reader result becomes the new `originalImage`, the generated image is
reset, the chat history is replaced by the single welcome turn, and
`resetChatSession()` is called.  With no file nothing happens. -/
def handleFileUpload (file : Option String) (s : AppState) : AppState :=
  match file with
  | none => s
  | some result =>
      resetChatSession
        { s with originalImage := some result, generatedImage := none,
                 chatHistory := [welcomeTurn] }

/-- The status turn appended by `handleStyleSelect` before awaiting the
generation request (src/App.tsx line 65). -/
def generatingTurn (style : DesignStyle) (now : Nat) : ChatMessage :=
  { id := toString now, role := .model,
    text := "Generating " ++ style.name ++ " design..." }

/-- The confirmation turn appended by `handleStyleSelect` on success
(src/App.tsx line 70). -/
def styleSuccessTurn (style : DesignStyle) (now : Nat) : ChatMessage :=
  { id := toString now, role := .model,
    text := "Here is a " ++ style.name ++ " take on your room! Use the slider to compare. You can refine this further by chatting with me below." }

/-- The apology turn appended by the `catch` of `handleStyleSelect`
(src/App.tsx line 72).  Note that the source does NOT set `isError` here. -/
def styleFailureTurn (now : Nat) : ChatMessage :=
  { id := toString now, role := .model,
    text := "Sorry, I had trouble generating that image. Please try again." }

/-- Synchronous prefix of `handleStyleSelect` (src/App.tsx lines 61-68), up to
and including issuing the generation request: guard on `originalImage`, set
`isGenerating`, append the status turn, and call
`generateReimaginedImage(originalImage, style.prompt)`.  Returns the issued
request (`none` when the guard returned early). -/
def handleStyleSelectStart (style : DesignStyle) (now : Nat) (s : AppState) :
    AppState × Option GenRequest :=
  match s.originalImage with
  | none => (s, none)
  | some orig =>
      ({ s with isGenerating := true,
                chatHistory := s.chatHistory ++ [generatingTurn style now] },
       some { source := orig, prompt := style.prompt })

/-- Continuation of `handleStyleSelect` after the awaited generation request
settles (src/App.tsx lines 68-75): on success store the render and append the
confirmation turn; on rejection append the apology turn; either way the
`finally` clears `isGenerating`.  It runs against whatever state holds when the
promise settles — the source has no session-identity guard. -/
def handleStyleSelectResume (style : DesignStyle) (outcome : Except Unit String)
    (now : Nat) (s : AppState) : AppState :=
  match outcome with
  | .ok result =>
      { s with generatedImage := some result,
               chatHistory := s.chatHistory ++ [styleSuccessTurn style now],
               isGenerating := false }
  | .error _ =>
      { s with chatHistory := s.chatHistory ++ [styleFailureTurn now],
               isGenerating := false }

/-- A complete `handleStyleSelect` run with no interleaved event between the
request and its resolution: the synchronous prefix followed directly by the
continuation. -/
def handleStyleSelect (style : DesignStyle) (outcome : Except Unit String)
    (n1 n2 : Nat) (s : AppState) : AppState × Option GenRequest :=
  match handleStyleSelectStart style n1 s with
  | (s1, none) => (s1, none)
  | (s1, some req) => (handleStyleSelectResume style outcome n2 s1, some req)

/-- Whitespace as stripped by JavaScript `String.prototype.trim`:
the WhiteSpace and LineTerminator code points. -/
def isJsWhitespace (c : Char) : Bool :=
  c.val = 0x20 || c.val = 0x09 || c.val = 0x0A || c.val = 0x0D ||
  c.val = 0x0B || c.val = 0x0C || c.val = 0xA0 || c.val = 0x1680 ||
  (0x2000 ≤ c.val && c.val ≤ 0x200A) || c.val = 0x2028 || c.val = 0x2029 ||
  c.val = 0x202F || c.val = 0x205F || c.val = 0x3000 || c.val = 0xFEFF

/-- Strip leading and trailing JavaScript whitespace from a character list. -/
def trimChars (l : List Char) : List Char :=
  ((l.dropWhile isJsWhitespace).reverse.dropWhile isJsWhitespace).reverse

/-- JavaScript `String.prototype.trim`. -/
def jsTrim (s : String) : String := ⟨trimChars s.data⟩

/-- The user turn appended by `handleSendMessage` (src/App.tsx lines 82, 89):
id from the clock, role `user`, text equal to the current input. -/
def userTurn (now : Nat) (text : String) : ChatMessage :=
  { id := toString now, role := .user, text := text }

/-- The guidance turn appended when no image is loaded
(src/App.tsx line 83); its id uses `Date.now() + 1`. -/
def uploadPromptTurn (now : Nat) : ChatMessage :=
  { id := toString (now + 1), role := .model,
    text := "Please upload an image of your room first so I can help you design it!" }

/-- The acknowledgment turn appended on a recognized visual-edit tool call
(src/App.tsx line 102), quoting the visual description. -/
def ackTurn (now : Nat) (desc : String) : ChatMessage :=
  { id := toString now, role := .model,
    text := "Sure! I\x27m updating the design: \"" ++ desc ++ "\"" }

/-- The confirmation turn appended after a chat-triggered regeneration
succeeds (src/App.tsx line 117). -/
def chatUpdatedTurn (now : Nat) : ChatMessage :=
  { id := toString now, role := .model,
    text := "I\x27ve updated the visualization based on your request. How does that look?" }

/-- The error turn appended by the `catch` of `handleSendMessage`
(src/App.tsx line 123); this one DOES set `isError: true`. -/
def chatErrorTurn (now : Nat) : ChatMessage :=
  { id := toString now, role := .model,
    text := "I encountered an error. Please try again.", isError := true }

/-- The `else if (response.text)` branch of `handleSendMessage`
(src/App.tsx lines 118-120), also reached when a tool call has an unexpected
name: append the reply text as a model turn when it is truthy (present and
non-empty), otherwise append nothing.  The `finally` clears `isChatLoading`. -/
def replyTextBranch (now : Nat) (r : ChatResponse) (s1 : AppState) :
    AppState × MsgEffects :=
  match r.text with
  | some t =>
      if t = "" then
        ({ s1 with isChatLoading := false }, { advisorCalled := true, genRequest := none })
      else
        let turn : ChatMessage := { id := toString now, role := .model, text := t }
        ({ s1 with chatHistory := s1.chatHistory ++ [turn], isChatLoading := false },
         { advisorCalled := true, genRequest := none })
  | none =>
      ({ s1 with isChatLoading := false }, { advisorCalled := true, genRequest := none })

/-- `handleSendMessage` (src/App.tsx lines 78-128) as one transition,
parameterized by the advisor outcome and — when a visual-edit tool call leads
to a regeneration — the outcome of that image request.
Paths, in source order:
- `!chatInput.trim()`: return with nothing changed;
- no `originalImage`: append the user turn and the upload-prompt turn, clear
  the input, contact nobody;
- otherwise append the user turn, clear the input, set `isChatLoading`, and
  contact the advisor (which lazily creates `chatSession`); then
  - advisor rejection: append the `isError` turn, clear both busy flags;
  - tool call named `updateRoomDesign`: append the acknowledgment, set
    `isGenerating`, issue `generateReimaginedImage(originalImage, desc)`;
    on success store the render, clear `isGenerating`, append the
    confirmation; on rejection the same `catch` appends the `isError` turn
    and clears `isGenerating`; `finally` clears `isChatLoading`;
  - anything else: the `else if (response.text)` branch. -/
def handleSendMessage (chatOutcome : ChatOutcome) (genOutcome : Except Unit String)
    (now : Nat) (s : AppState) : AppState × MsgEffects :=
  if jsTrim s.chatInput = "" then
    (s, { advisorCalled := false, genRequest := none })
  else
    match s.originalImage with
    | none =>
        let turns := [userTurn now s.chatInput, uploadPromptTurn now]
        ({ s with chatHistory := s.chatHistory ++ turns, chatInput := "" },
         { advisorCalled := false, genRequest := none })
    | some orig =>
        let s1 : AppState :=
          { s with chatHistory := s.chatHistory ++ [userTurn now s.chatInput],
                   chatInput := "", isChatLoading := true, chatSession := some () }
        match chatOutcome with
        | .reject =>
            ({ s1 with chatHistory := s1.chatHistory ++ [chatErrorTurn now],
                       isGenerating := false, isChatLoading := false },
             { advisorCalled := true, genRequest := none })
        | .reply r =>
            match r.toolCall with
            | some tc =>
                if tc.name = "updateRoomDesign" then
                  let ack := ackTurn now tc.visualDescription
                  let s2 : AppState :=
                    { s1 with chatHistory := s1.chatHistory ++ [ack],
                              isGenerating := true }
                  let req : GenRequest := { source := orig, prompt := tc.visualDescription }
                  match genOutcome with
                  | .ok newImage =>
                      ({ s2 with generatedImage := some newImage,
                                 isGenerating := false,
                                 chatHistory := s2.chatHistory ++ [chatUpdatedTurn now],
                                 isChatLoading := false },
                       { advisorCalled := true, genRequest := some req })
                  | .error _ =>
                      ({ s2 with chatHistory := s2.chatHistory ++ [chatErrorTurn now],
                                 isGenerating := false, isChatLoading := false },
                       { advisorCalled := true, genRequest := some req })
                else
                  replyTextBranch now r s1
            | none => replyTextBranch now r s1

/-- State right after uploading the photo `"imgA"` into a fresh app. -/
def sessionStateA : AppState := handleFileUpload (some "imgA") initialState

/-- The stale-request interleaving of spec section 8: upload `"imgA"`, let
`handleStyleSelect(Modern)` issue its generation request, upload `"imgC"`
before the request resolves, then let the request resolve with the render
`"renderB"`.  The continuation runs against the new session. -/
def staleRenderScenario : AppState :=
  let sA := handleFileUpload (some "imgA") initialState
  let s1 := (handleStyleSelectStart styleModern 1 sA).1
  let sC := handleFileUpload (some "imgC") s1
  handleStyleSelectResume styleModern (.ok "renderB") 2 sC

/-- A state in which a chat turn is outstanding (`isChatLoading = true`,
reached right after `handleSendMessage` suspends on the advisor call) while no
image generation is running. -/
def chatAwaitingState : AppState :=
  { originalImage := some "imgA", generatedImage := none, isGenerating := false,
    chatHistory := [welcomeTurn], chatInput := "", isChatLoading := true,
    chatSession := some () }

/-- A fresh app whose chat input holds a single space (non-empty text made of
whitespace only). -/
def wsInputState : AppState := { initialState with chatInput := " " }

/-- A fresh app (no session) whose chat input holds a real message. -/
def noSessionHelloState : AppState := { initialState with chatInput := "hello" }

/-- An active session (photo `"imgA"` uploaded) whose chat input holds a real
message. -/
def activeHelloState : AppState := { sessionStateA with chatInput := "hello" }

/-- `disabled={isGenerating}` on each preset style button
(src/App.tsx line 224). -/
def styleButtonDisabled (s : AppState) : Bool := s.isGenerating

/-- `disabled={isChatLoading || isGenerating}` on the chat text input
(src/App.tsx line 285). -/
def chatInputDisabled (s : AppState) : Bool := s.isChatLoading || s.isGenerating

/-- `disabled={!chatInput.trim() || isChatLoading || isGenerating}` on the chat
send button (src/App.tsx line 290). -/
def sendButtonDisabled (s : AppState) : Bool :=
  (jsTrim s.chatInput == "") || s.isChatLoading || s.isGenerating

end Lumina

namespace CompareSlider

/-- JavaScript number division restricted to the values `handleMove` can feed
it: the dividend `x` is clamped to `[0, b]`, so when the divisor `b` is zero
the dividend is zero and `0 / 0` is IEEE NaN, modelled as `none`; a nonzero
divisor gives the exact rational quotient. -/
def jsDiv (a b : ℚ) : Option ℚ :=
  if b = 0 then none else some (a / b)

/-- `handleMove` of src/components/CompareSlider.tsx lines 15-22: clamp the
pointer offset into `[0, rect.width]`, divide by `rect.width`, scale to a
percentage, and store the result as the new slider position.  The returned
value is what `setSliderPosition` receives; `none` is the NaN produced when
`rect.width` is zero. -/
def handleMove (clientX rectLeft rectWidth : ℚ) : Option ℚ :=
  let x := max 0 (min (clientX - rectLeft) rectWidth)
  (jsDiv x rectWidth).map (fun p => p * 100)

end CompareSlider

namespace Lumina

/-! ### Helper lemmas -/

/-- The `else if (response.text)` branch never issues a generation request. -/
theorem replyTextBranch_genRequest_eq_none (now : Nat) (r : ChatResponse)
    (s1 : AppState) : (replyTextBranch now r s1).2.genRequest = none := by
  rcases hr : r.text with _ | t
  · simp [replyTextBranch, hr]
  · by_cases ht : t = "" <;> simp [replyTextBranch, hr, ht]

/-- The `else if (response.text)` branch never touches the chat-session
handle. -/
theorem replyTextBranch_chatSession (now : Nat) (r : ChatResponse)
    (s1 : AppState) : (replyTextBranch now r s1).1.chatSession = s1.chatSession := by
  rcases hr : r.text with _ | t
  · simp [replyTextBranch, hr]
  · by_cases ht : t = "" <;> simp [replyTextBranch, hr, ht]

/-- A string all of whose characters are JavaScript whitespace trims to the
empty string. -/
theorem jsTrim_eq_empty (s : String)
    (h : ∀ c ∈ s.data, isJsWhitespace c = true) : jsTrim s = "" := by
  have h1 : s.data.dropWhile isJsWhitespace = [] :=
    List.dropWhile_eq_nil_iff.mpr h
  simp [jsTrim, trimChars, h1]

/-! ### Claim theorems -/

/-- Claim C1 (code bug): in the stale-request interleaving — upload image A,
let `applyStyle(Modern)` issue its generation request, upload image C before
the request resolves, then let it resolve with render B — the source applies
the stale render to the new session: `generatedImage` becomes render B even
though the session is now anchored on image C, because `handleStyleSelect` has
no session-identity guard.  The claim says `currentRender` must remain
absent. -/
theorem c1_stale_render_applied :
    staleRenderScenario.originalImage = some "imgC" ∧
    staleRenderScenario.generatedImage = some "renderB" ∧
    staleRenderScenario.generatedImage ≠ none := by
  have h2 : staleRenderScenario.generatedImage = some "renderB" := rfl
  refine ⟨rfl, h2, ?_⟩
  rw [h2]
  simp

/-- Claim C3 (code bug): with a zero-width container, `handleMove` evaluates
`(0 / 0) * 100`, which in JavaScript is NaN (modelled `none`), and stores that
non-numeric value as the slider position instead of clamping to `[0,100]` or
skipping the update. -/
theorem c3_zero_width_gives_nan : CompareSlider.handleMove 5 0 0 = none := by
  simp [CompareSlider.handleMove, CompareSlider.jsDiv]

/-- Claim C4 (code bug): in a state where a chat turn is outstanding
(`isChatLoading = true`) and no generation is running, the preset style
buttons are NOT disabled — their `disabled` prop only checks `isGenerating` —
and a style click in that state does issue a generation request, so a second
request can become outstanding when the pending chat turn triggers a visual
edit.  The claim says style controls are disabled whenever `isChatLoading` is
true. -/
theorem c4_style_buttons_enabled_while_chat_busy :
    chatAwaitingState.isChatLoading = true ∧
    styleButtonDisabled chatAwaitingState = false ∧
    (handleStyleSelectStart styleModern 1 chatAwaitingState).2 =
      some { source := "imgA", prompt := styleModern.prompt } :=
  ⟨rfl, rfl, rfl⟩

/-- Claim C5, counterexample: when the generation collaborator rejects during
`applyStyle` on a fresh session, the resulting history contains NO turn with
`isError = true` — the apology turn appended by the `catch` of
`handleStyleSelect` does not set the flag — so "exactly one `isError = true`
turn is appended" is false. -/
theorem c5_no_isError_turn_on_style_failure :
    ¬ ((handleStyleSelect styleModern (.error ()) 1 2 sessionStateA).1.chatHistory.countP
        (fun t => t.isError) = 1) := by decide

/-- Claim C5, amended: when the generation collaborator rejects during
`applyStyle`, exactly one apology turn is appended after the status turn; it
does not carry `isError = true` (the flag is only set on chat-path failures);
`isGenerating` is false afterwards and the render is unchanged. -/
theorem c5_style_failure_appends_plain_apology (style : DesignStyle) (e : Unit)
    (n1 n2 : Nat) (s : AppState) (orig : String)
    (h : s.originalImage = some orig) :
    (handleStyleSelect style (.error e) n1 n2 s).1.chatHistory =
        s.chatHistory ++ [generatingTurn style n1, styleFailureTurn n2] ∧
    (styleFailureTurn n2).isError = false ∧
    (handleStyleSelect style (.error e) n1 n2 s).1.isGenerating = false ∧
    (handleStyleSelect style (.error e) n1 n2 s).1.generatedImage = s.generatedImage := by
  simp [handleStyleSelect, handleStyleSelectStart, handleStyleSelectResume, h,
    styleFailureTurn]

/-- Witness for the amended C5 at a concrete session and failure. -/
theorem c5_style_failure_witness :
    (handleStyleSelect styleModern (.error ()) 1 2 sessionStateA).1.chatHistory =
        sessionStateA.chatHistory ++ [generatingTurn styleModern 1, styleFailureTurn 2] ∧
    (styleFailureTurn 2).isError = false ∧
    (handleStyleSelect styleModern (.error ()) 1 2 sessionStateA).1.isGenerating = false ∧
    (handleStyleSelect styleModern (.error ()) 1 2 sessionStateA).1.generatedImage =
        sessionStateA.generatedImage :=
  c5_style_failure_appends_plain_apology styleModern () 1 2 sessionStateA "imgA" rfl

/-- Claim C6: however the generation request fails, a complete
`handleStyleSelect` run leaves `generatedImage` exactly as it was — the
`catch` path never touches it (including when it was absent). -/
theorem c6_style_failure_preserves_render (style : DesignStyle) (e : Unit)
    (n1 n2 : Nat) (s : AppState) :
    (handleStyleSelect style (.error e) n1 n2 s).1.generatedImage =
      s.generatedImage := by
  cases horig : s.originalImage <;>
    simp [handleStyleSelect, handleStyleSelectStart, handleStyleSelectResume, horig]

end Lumina

namespace Lumina

/-- Claim C2: whenever a generation request is issued — by
`handleStyleSelect` or by the visual-edit path of `handleSendMessage` — its
source image is the session's `originalImage`, never the current render. -/
theorem c2_generation_source_is_original :
    (∀ (style : DesignStyle) (now : Nat) (s : AppState) (req : GenRequest),
        (handleStyleSelectStart style now s).2 = some req →
        s.originalImage = some req.source) ∧
    (∀ (co : ChatOutcome) (go : Except Unit String) (now : Nat) (s : AppState)
        (req : GenRequest),
        (handleSendMessage co go now s).2.genRequest = some req →
        s.originalImage = some req.source) := by
  constructor
  · intro style now s req h
    cases horig : s.originalImage with
    | none => simp [handleStyleSelectStart, horig] at h
    | some orig =>
        simp [handleStyleSelectStart, horig] at h
        subst h
        rfl
  · intro co go now s req h
    by_cases hguard : jsTrim s.chatInput = ""
    · simp [handleSendMessage, hguard] at h
    · cases horig : s.originalImage with
      | none => simp [handleSendMessage, hguard, horig] at h
      | some orig =>
          cases co with
          | reject => simp [handleSendMessage, hguard, horig] at h
          | reply r =>
              cases htc : r.toolCall with
              | none =>
                  simp [handleSendMessage, hguard, horig, htc,
                    replyTextBranch_genRequest_eq_none] at h
              | some tc =>
                  by_cases hname : tc.name = "updateRoomDesign"
                  · cases go with
                    | ok img =>
                        simp [handleSendMessage, hguard, horig, htc, hname] at h
                        subst h
                        rfl
                    | error e =>
                        simp [handleSendMessage, hguard, horig, htc, hname] at h
                        subst h
                        rfl
                  · simp [handleSendMessage, hguard, horig, htc, hname,
                      replyTextBranch_genRequest_eq_none] at h

/-- Witness for C2 at a concrete style selection on a fresh session. -/
theorem c2_witness :
    sessionStateA.originalImage =
      some ({ source := "imgA", prompt := styleModern.prompt } : GenRequest).source :=
  c2_generation_source_is_original.1 styleModern 1 sessionStateA
    { source := "imgA", prompt := styleModern.prompt } rfl

/-- Claim C7, counterexample: the input `" "` is a non-empty message text, yet
`handleSendMessage` with no active session appends nothing at all (the trim
guard returns first), not the two turns the claim requires. -/
theorem c7_whitespace_message_appends_nothing :
    ¬ ((handleSendMessage .reject (.error ()) 0 wsInputState).1.chatHistory.length =
        wsInputState.chatHistory.length + 2) := by decide

/-- Claim C7, amended: for every message whose TRIMMED text is non-empty,
`handleSendMessage` with no active session contacts neither collaborator and
appends exactly two turns — the user turn followed by the prompt-to-upload
turn — clearing the input. -/
theorem c7_no_session_appends_user_and_prompt (co : ChatOutcome)
    (go : Except Unit String) (now : Nat) (s : AppState)
    (hmsg : ¬ (jsTrim s.chatInput = "")) (hsess : s.originalImage = none) :
    handleSendMessage co go now s =
      ({ s with chatHistory :=
                  s.chatHistory ++ [userTurn now s.chatInput, uploadPromptTurn now],
                chatInput := "" },
       { advisorCalled := false, genRequest := none }) := by
  simp [handleSendMessage, hmsg, hsess]

/-- Witness for the amended C7 at a concrete message with no session. -/
theorem c7_witness :
    handleSendMessage ChatOutcome.reject (Except.error ()) 0 noSessionHelloState =
      ({ noSessionHelloState with
          chatHistory := noSessionHelloState.chatHistory ++
            [userTurn 0 noSessionHelloState.chatInput, uploadPromptTurn 0],
          chatInput := "" },
       { advisorCalled := false, genRequest := none }) :=
  c7_no_session_appends_user_and_prompt ChatOutcome.reject (Except.error ()) 0
    noSessionHelloState (by decide) rfl

/-- Claim C8: uploading a new photo always yields a fresh session — the new
`originalImage`, an absent render, a history of exactly the one welcome
assistant turn, and a discarded conversation handle; and the next advisor
contact on the new session recreates the handle. -/
theorem c8_upload_starts_fresh_session (img : String) (s : AppState) :
    (handleFileUpload (some img) s).originalImage = some img ∧
    (handleFileUpload (some img) s).generatedImage = none ∧
    (handleFileUpload (some img) s).chatHistory = [welcomeTurn] ∧
    welcomeTurn.role = Role.model ∧
    (handleFileUpload (some img) s).chatSession = none ∧
    (∀ (co : ChatOutcome) (go : Except Unit String) (now : Nat),
        ((handleSendMessage co go now
            { handleFileUpload (some img) s with chatInput := "hi" }).1).chatSession =
          some ()) := by
  refine ⟨rfl, rfl, rfl, rfl, rfl, ?_⟩
  intro co go now
  have hguard : ¬ (jsTrim ("hi" : String) = "") := by decide
  cases co with
  | reject =>
      simp [handleSendMessage, hguard, handleFileUpload, resetChatSession]
  | reply r =>
      cases htc : r.toolCall with
      | none =>
          simp [handleSendMessage, hguard, handleFileUpload, resetChatSession,
            htc, replyTextBranch_chatSession]
      | some tc =>
          by_cases hname : tc.name = "updateRoomDesign"
          · cases go <;>
              simp [handleSendMessage, hguard, handleFileUpload, resetChatSession,
                htc, hname]
          · simp [handleSendMessage, hguard, handleFileUpload, resetChatSession,
              htc, hname, replyTextBranch_chatSession]

/-- Claim C9: when the advisor reply, as shaped by `sendMessageToAdvisor`,
carries a tool call whose name is not `updateRoomDesign`, or carries neither a
tool call nor (non-empty) text, `handleSendMessage` appends no assistant turn
beyond the user turn, issues no generation request, leaves the render
untouched, and still clears `isChatLoading`. -/
theorem c9_unrecognized_reply_is_dropped (fcs : List ToolCall)
    (txt : Option String) (go : Except Unit String) (now : Nat) (s : AppState)
    (orig : String) (hsess : s.originalImage = some orig)
    (hmsg : ¬ (jsTrim s.chatInput = ""))
    (hdrop : (∃ tc rest, fcs = tc :: rest ∧ ¬ (tc.name = "updateRoomDesign")) ∨
             (fcs = [] ∧ (txt = none ∨ txt = some ""))) :
    (handleSendMessage (.reply (shapeAdvisorReply fcs txt)) go now s).1.chatHistory =
        s.chatHistory ++ [userTurn now s.chatInput] ∧
    (handleSendMessage (.reply (shapeAdvisorReply fcs txt)) go now s).2.genRequest =
        none ∧
    (handleSendMessage (.reply (shapeAdvisorReply fcs txt)) go now s).1.isChatLoading =
        false ∧
    (handleSendMessage (.reply (shapeAdvisorReply fcs txt)) go now s).1.generatedImage =
        s.generatedImage := by
  rcases hdrop with ⟨tc, rest, hfcs, hname⟩ | ⟨hfcs, htxt⟩
  · subst hfcs
    simp [handleSendMessage, hmsg, hsess, shapeAdvisorReply, replyTextBranch, hname]
  · subst hfcs
    rcases htxt with h | h <;> subst h <;>
      simp [handleSendMessage, hmsg, hsess, shapeAdvisorReply, replyTextBranch]

/-- Witness for C9: a tool call named `otherTool` on an active session is
silently dropped. -/
theorem c9_witness :
    (handleSendMessage
        (.reply (shapeAdvisorReply [{ name := "otherTool", visualDescription := "x" }] none))
        (Except.error ()) 0 activeHelloState).1.chatHistory =
        activeHelloState.chatHistory ++ [userTurn 0 activeHelloState.chatInput] ∧
    (handleSendMessage
        (.reply (shapeAdvisorReply [{ name := "otherTool", visualDescription := "x" }] none))
        (Except.error ()) 0 activeHelloState).2.genRequest = none ∧
    (handleSendMessage
        (.reply (shapeAdvisorReply [{ name := "otherTool", visualDescription := "x" }] none))
        (Except.error ()) 0 activeHelloState).1.isChatLoading = false ∧
    (handleSendMessage
        (.reply (shapeAdvisorReply [{ name := "otherTool", visualDescription := "x" }] none))
        (Except.error ()) 0 activeHelloState).1.generatedImage =
        activeHelloState.generatedImage :=
  c9_unrecognized_reply_is_dropped
    [{ name := "otherTool", visualDescription := "x" }] none (Except.error ()) 0
    activeHelloState "imgA" rfl (by decide)
    (Or.inl ⟨{ name := "otherTool", visualDescription := "x" }, [], rfl, by decide⟩)

/-- Claim C10: a message that is empty or whitespace-only makes
`handleSendMessage` a complete no-op — the state is returned unchanged, no
collaborator is contacted, no request is issued — whether or not a session is
active. -/
theorem c10_blank_message_is_noop (co : ChatOutcome) (go : Except Unit String)
    (now : Nat) (s : AppState)
    (h : ∀ c ∈ s.chatInput.data, isJsWhitespace c = true) :
    handleSendMessage co go now s =
      (s, { advisorCalled := false, genRequest := none }) := by
  simp [handleSendMessage, jsTrim_eq_empty s.chatInput h]

/-- Witness for C10 at the single-space input. -/
theorem c10_witness :
    handleSendMessage ChatOutcome.reject (Except.error ()) 0 wsInputState =
      (wsInputState, { advisorCalled := false, genRequest := none }) :=
  c10_blank_message_is_noop ChatOutcome.reject (Except.error ()) 0 wsInputState
    (by decide)

end Lumina
